import Mathlib

/-!
# Verification of the StoryViewer asset-prefetch and audio-playback controller

Shallow embedding of the `StoryViewer` React component
(`components/StoryViewer.tsx`): per-page asset state, the `updatePage`
merge primitive, the playback controller
(`stopAudio` / `playAudioForCurrentPage` / `handlePlayPauseToggle`),
page navigation (`handleNextPage` / `handlePrevPage`), the autoplay
effect, and the `prefetchAssets` loop.

Modelling choices:
* React state updates are explicit state passing over a `ViewerState`
  record; `useRef` cells (`audioContextRef` / `audioSourceRef`) become the
  `audioSession` field.  The two refs are always written and cleared
  together in the source, so they are modelled as one optional `Session`.
* An `AudioContext`/`AudioBufferSourceNode` pair is a `Session` carrying an
  identity (`ctxId`, so object identity across pause/resume is provable), the
  page index whose `audioBuffer` it is bound to, and its context state
  (`running`/`suspended`).  `ViewerState.liveCtxIds` tracks the audio
  contexts that have been created and not yet closed, so "the old output
  context was released" is expressible.
* `AudioBuffer` values are abstract: `PageState.audioBuffer : Option Nat`
  records presence and identity only.
* The `async` prefetch loop is embedded twice, at two granularities, both
  directly from the source: `advance`/`deliver` is its small-step
  (per-`await` suspension point) semantics, used for ordering/blocking
  properties, and `prefetchFrom` is the big-step end-to-end run against a
  response oracle, used for final-state properties.
-/

/-- `StoryPage` from `types.ts`: the immutable input record. -/
structure StoryPage where
  text : String
  imagePrompt : String
deriving DecidableEq, Repr, Inhabited

/-- `StoryPageState` from `StoryViewer.tsx` (lines 13-21): per-page asset
state.  `audioBuffer` is an abstract buffer identity. -/
structure PageState where
  text : String
  imagePrompt : String
  imageUrl : Option String
  audioData : Option String
  audioBuffer : Option Nat
  isImageLoading : Bool
  isAudioLoading : Bool
  imageError : Bool
  audioError : Bool
deriving DecidableEq, Repr, Inhabited

/-- `Partial<StoryPageState>`: each field is `some v` when the update object
carries that key, `none` when the key is absent (spread keeps the old
value). -/
structure PagePatch where
  text : Option String := none
  imagePrompt : Option String := none
  imageUrl : Option (Option String) := none
  audioData : Option (Option String) := none
  audioBuffer : Option (Option Nat) := none
  isImageLoading : Option Bool := none
  isAudioLoading : Option Bool := none
  imageError : Option Bool := none
  audioError : Option Bool := none
deriving DecidableEq, Repr, Inhabited

/-- The JS object spread `\x7b ...page, ...updates \x7d`: keys present in
`updates` override, all other fields keep their previous value. -/
def applyPatch (p : PageState) (u : PagePatch) : PageState :=
  { text := u.text.getD p.text
    imagePrompt := u.imagePrompt.getD p.imagePrompt
    imageUrl := u.imageUrl.getD p.imageUrl
    audioData := u.audioData.getD p.audioData
    audioBuffer := u.audioBuffer.getD p.audioBuffer
    isImageLoading := u.isImageLoading.getD p.isImageLoading
    isAudioLoading := u.isAudioLoading.getD p.isAudioLoading
    imageError := u.imageError.getD p.imageError
    audioError := u.audioError.getD p.audioError }

/-- `updatePage` (lines 44-50) at the array level: copy the array and
replace the record at `index` by the merged record.  Out-of-range indices
leave the list unchanged. -/
def updatePages (ps : List PageState) (index : Nat) (u : PagePatch) : List PageState :=
  match ps, index with
  | [], _ => []
  | p :: rest, 0 => applyPatch p u :: rest
  | p :: rest, n + 1 => p :: updatePages rest n u

/-- `playbackStatus` (line 23). -/
inductive PlaybackStatus where
  | playing
  | paused
  | stopped
deriving DecidableEq, Repr, Inhabited

/-- The state of a (not yet closed) `AudioContext`. -/
inductive CtxState where
  | running
  | suspended
deriving DecidableEq, Repr, Inhabited

/-- One playback session: the `AudioContext`/`AudioBufferSourceNode` pair
held in `audioContextRef`/`audioSourceRef`.  `ctxId` is the object
identity of the context, `boundPage` the page whose `audioBuffer` the
source was bound to. -/
structure Session where
  ctxId : Nat
  boundPage : Nat
  ctxState : CtxState
deriving DecidableEq, Repr, Inhabited

/-- The `StoryViewer` component state: `useState` hooks plus the two refs
(as `audioSession`).  `nextCtxId` supplies fresh context identities and
`liveCtxIds` lists the contexts created and not yet closed. -/
structure ViewerState where
  currentPageIndex : Nat
  storyPages : List PageState
  playbackStatus : PlaybackStatus
  shouldAutoplay : Bool
  audioSession : Option Session
  nextCtxId : Nat
  liveCtxIds : List Nat
deriving DecidableEq, Repr, Inhabited

/-- Initial per-page state (lines 27-35): the input pages with cleared
asset fields and flags. -/
def initPages (props : List StoryPage) : List PageState :=
  props.map fun p =>
    { text := p.text
      imagePrompt := p.imagePrompt
      imageUrl := none
      audioData := none
      audioBuffer := none
      isImageLoading := false
      isAudioLoading := false
      imageError := false
      audioError := false }

/-- Initial component state. -/
def initViewer (props : List StoryPage) : ViewerState :=
  { currentPageIndex := 0
    storyPages := initPages props
    playbackStatus := PlaybackStatus.stopped
    shouldAutoplay := false
    audioSession := none
    nextCtxId := 0
    liveCtxIds := [] }

/-- `updatePage` (lines 44-50) at the component level. -/
def updatePage (s : ViewerState) (index : Nat) (u : PagePatch) : ViewerState :=
  { s with storyPages := updatePages s.storyPages index u }

/-- `stopAudio` (lines 52-67): disconnect the completion callback, halt the
source, close the context (removing it from the live set), clear both
refs, set status `stopped`. -/
def stopAudio (s : ViewerState) : ViewerState :=
  let live :=
    match s.audioSession with
    | some sess => s.liveCtxIds.filter fun id => id ≠ sess.ctxId
    | none => s.liveCtxIds
  { s with
    audioSession := none
    playbackStatus := PlaybackStatus.stopped
    liveCtxIds := live }

/-- `source.stop()` on a raw `AudioBufferSourceNode`: throws when the
source has already finished playing. -/
def sourceStopRaw (alreadyFinished : Bool) : Except String Unit :=
  if alreadyFinished then Except.error "InvalidStateError" else Except.ok ()

/-- `stopAudio` with the fallible `source.stop()` call made explicit: the
`try`/`catch` of lines 55-59 swallows the error, so the function as a
whole never raises. -/
def stopAudioE (alreadyFinished : Bool) (s : ViewerState) : Except String ViewerState :=
  match s.audioSession with
  | some _ =>
    match sourceStopRaw alreadyFinished with
    | Except.ok _ => Except.ok (stopAudio s)
    | Except.error _ => Except.ok (stopAudio s)
  | none => Except.ok (stopAudio s)

/-- `storyPages[currentPageIndex].audioBuffer` for the displayed page. -/
def currentAudioBuffer (s : ViewerState) : Option Nat :=
  s.storyPages[s.currentPageIndex]?.bind fun p => p.audioBuffer

/-- `playAudioForCurrentPage` (lines 69-89): no-op without a decoded
buffer; otherwise `stopAudio()` first, then create a fresh context and
source bound to the current page, start it, record the session, set
status `playing`. -/
def playAudioForCurrentPage (s : ViewerState) : ViewerState :=
  match currentAudioBuffer s with
  | none => s
  | some _ =>
    let s1 := stopAudio s
    { s1 with
      audioSession := some
        { ctxId := s1.nextCtxId
          boundPage := s.currentPageIndex
          ctxState := CtxState.running }
      nextCtxId := s1.nextCtxId + 1
      liveCtxIds := s1.liveCtxIds ++ [s1.nextCtxId]
      playbackStatus := PlaybackStatus.playing }

/-- The `source.onended` callback (lines 79-83): when the source finishes
and the context is not suspended, `stopAudio()`. -/
def onSourceEnded (s : ViewerState) : ViewerState :=
  match s.audioSession with
  | some sess => if sess.ctxState = CtxState.suspended then s else stopAudio s
  | none => stopAudio s

/-- `handlePlayPauseToggle` (lines 139-154): clear the autoplay intent,
then dispatch on status — suspend from `playing`, resume from `paused`,
play from `stopped`. -/
def handlePlayPauseToggle (s : ViewerState) : ViewerState :=
  let s0 := { s with shouldAutoplay := false }
  match s0.playbackStatus with
  | PlaybackStatus.playing =>
    match s0.audioSession with
    | some sess =>
      if sess.ctxState = CtxState.running then
        { s0 with
          audioSession := some { sess with ctxState := CtxState.suspended }
          playbackStatus := PlaybackStatus.paused }
      else s0
    | none => s0
  | PlaybackStatus.paused =>
    match s0.audioSession with
    | some sess =>
      if sess.ctxState = CtxState.suspended then
        { s0 with
          audioSession := some { sess with ctxState := CtxState.running }
          playbackStatus := PlaybackStatus.playing }
      else s0
    | none => s0
  | PlaybackStatus.stopped => playAudioForCurrentPage s0

/-- `handleNextPage` (lines 156-162). -/
def handleNextPage (s : ViewerState) : ViewerState :=
  if s.currentPageIndex < s.storyPages.length - 1 then
    let s1 := stopAudio s
    { s1 with
      currentPageIndex := s1.currentPageIndex + 1
      shouldAutoplay := true }
  else s

/-- `handlePrevPage` (lines 164-170). -/
def handlePrevPage (s : ViewerState) : ViewerState :=
  if 0 < s.currentPageIndex then
    let s1 := stopAudio s
    { s1 with
      currentPageIndex := s1.currentPageIndex - 1
      shouldAutoplay := false }
  else s

/-- The autoplay effect (lines 128-136), run whenever its dependencies
change: if the intent is armed and the displayed page's buffer is ready,
play and consume the intent.  The boolean reports whether `play()` was
invoked by this run of the effect. -/
def autoplayEffect (s : ViewerState) : ViewerState × Bool :=
  if s.shouldAutoplay then
    match currentAudioBuffer s with
    | some _ =>
      ({ playAudioForCurrentPage s with shouldAutoplay := false }, true)
    | none => (s, false)
  else (s, false)

/-! ## The prefetch pipeline (`prefetchAssets`, lines 91-126)

The `for` loop `await`s `generateImage` / `generateSpeech` (plus the audio
decode) for page `i` before touching page `i + 1`.  Its conditions read
`pages[i]` (the props) and `storyPages[i]` from the *closure snapshot*
`snap` taken when the effect ran, not the evolving state. -/

/-- Which remote asset a fetch targets. -/
inductive AssetKind where
  | image
  | audio
deriving DecidableEq, Repr, Inhabited

/-- One issued fetch: `generateImage(pages[i].imagePrompt)` or
`generateSpeech(pages[i].text)` (with its decode). -/
structure FetchReq where
  page : Nat
  kind : AssetKind
deriving DecidableEq, Repr, Inhabited

/-- Response oracle for the remote gateway: `some payload` on success,
`none` when the fetch (or the audio decode) throws. -/
def FetchEnv : Type := Nat → AssetKind → Option String

/-- Line 95: `pages[i].imagePrompt && !storyPages[i].imageUrl` (JS
truthiness: nonempty prompt, no fetched URL in the snapshot). -/
def condImage (props : List StoryPage) (snap : List PageState) (i : Nat) : Bool :=
  match props.get? i, snap.get? i with
  | some sp, some st => sp.imagePrompt ≠ "" && st.imageUrl.isNone
  | _, _ => false

/-- Line 107: `pages[i].text && !storyPages[i].audioBuffer`. -/
def condAudio (props : List StoryPage) (snap : List PageState) (i : Nat) : Bool :=
  match props.get? i, snap.get? i with
  | some sp, some st => sp.text ≠ "" && st.audioBuffer.isNone
  | _, _ => false

/-- Lines 98-103: the state update applied when page `i`'s image fetch
resolves (`some url`) or rejects (`none`). -/
def imageResultPatch (res : Option String) : PagePatch :=
  match res with
  | some url => { imageUrl := some (some url), isImageLoading := some false }
  | none => { isImageLoading := some false, imageError := some true }

/-- Lines 110-119: the state update applied when page `i`'s speech fetch
and decode resolve (`some data`, the decoded buffer getting identity `i`)
or reject (`none`). -/
def audioResultPatch (i : Nat) (res : Option String) : PagePatch :=
  match res with
  | some data =>
    { audioData := some (some data)
      audioBuffer := some (some i)
      isAudioLoading := some false }
  | none => { isAudioLoading := some false, audioError := some true }

/-- One iteration of the loop body (lines 93-121) for page `i`: the image
block (lines 94-104) followed by the audio block (lines 106-120), each
issuing its fetch and applying the loading-flag and result updates. -/
def iterPage (env : FetchEnv) (props : List StoryPage) (snap : List PageState)
    (i : Nat) (cur : List PageState) : List PageState × List FetchReq :=
  let step1 : List PageState × List FetchReq :=
    if condImage props snap i then
      (updatePages (updatePages cur i { isImageLoading := some true }) i
        (imageResultPatch (env i AssetKind.image)),
        [{ page := i, kind := AssetKind.image }])
    else (cur, [])
  let step2 : List PageState × List FetchReq :=
    if condAudio props snap i then
      (updatePages (updatePages step1.1 i { isAudioLoading := some true }) i
        (audioResultPatch i (env i AssetKind.audio)),
        [{ page := i, kind := AssetKind.audio }])
    else (step1.1, [])
  (step2.1, step1.2 ++ step2.2)

/-- Big-step run of the loop from page index `i` against the oracle
`env`: returns the final `storyPages` and the list of fetches issued, in
issue order.  This is the end-to-end behaviour of `prefetchAssets` when
every `await` eventually returns. -/
def prefetchFrom (env : FetchEnv) (props : List StoryPage) (snap : List PageState)
    (i : Nat) (cur : List PageState) : List PageState × List FetchReq :=
  if _h : i < props.length then
    let it := iterPage env props snap i cur
    let rest := prefetchFrom env props snap (i + 1) it.1
    (rest.1, it.2 ++ rest.2)
  else (cur, [])
termination_by props.length - i

/-- The complete `prefetchAssets` pass: loop from page 0, with both the
snapshot used in the conditions and the evolving state starting at the
initial page state. -/
def prefetchAssets (env : FetchEnv) (props : List StoryPage) :
    List PageState × List FetchReq :=
  prefetchFrom env props (initPages props) 0 (initPages props)

/-! ### Small-step (suspension-point) semantics of the same loop

`prefetchAssets` is an `async` function: it runs synchronously until the
first `await`, suspends there, and resumes only when that promise
settles.  `Kont` is the loop's continuation, `advance` runs it up to the
next suspension (emitting the fetch it suspends on), and `deliver`
resumes a suspended run with the settled result. -/

/-- Continuation of the prefetch loop: about to run the image check for
page `i`; about to run the audio check for page `i`; suspended awaiting
page `i`'s image / audio fetch; or done. -/
inductive Kont where
  | run (i : Nat)
  | runAudio (i : Nat)
  | waitImage (i : Nat)
  | waitAudio (i : Nat)
  | finished
deriving DecidableEq, Repr, Inhabited

/-- Run the loop synchronously until it suspends on an `await` (returning
the fetch it issued) or terminates.  Suspended and finished continuations
make no progress on their own. -/
def advance (props : List StoryPage) (snap : List PageState) :
    Kont → List PageState → Kont × List PageState × Option FetchReq
  | Kont.run i, cur =>
    if _h : i < props.length then
      if condImage props snap i then
        (Kont.waitImage i, updatePages cur i { isImageLoading := some true },
          some { page := i, kind := AssetKind.image })
      else advance props snap (Kont.runAudio i) cur
    else (Kont.finished, cur, none)
  | Kont.runAudio i, cur =>
    if condAudio props snap i then
      (Kont.waitAudio i, updatePages cur i { isAudioLoading := some true },
        some { page := i, kind := AssetKind.audio })
    else advance props snap (Kont.run (i + 1)) cur
  | Kont.waitImage i, cur => (Kont.waitImage i, cur, none)
  | Kont.waitAudio i, cur => (Kont.waitAudio i, cur, none)
  | Kont.finished, cur => (Kont.finished, cur, none)
termination_by k _ =>
  match k with
  | Kont.run i => 2 * (props.length + 1 - i)
  | Kont.runAudio i => 2 * (props.length - i) + 1
  | _ => 0

/-- Resume a suspended run by delivering the settled result of the fetch
it was awaiting, apply the corresponding state update, and run on to the
next suspension point.  Delivering to a non-suspended continuation does
nothing. -/
def deliver (props : List StoryPage) (snap : List PageState)
    (k : Kont) (cur : List PageState) (res : Option String) :
    Kont × List PageState × Option FetchReq :=
  match k with
  | Kont.waitImage i =>
    advance props snap (Kont.runAudio i) (updatePages cur i (imageResultPatch res))
  | Kont.waitAudio i =>
    advance props snap (Kont.run (i + 1)) (updatePages cur i (audioResultPatch i res))
  | _ => (k, cur, none)

/-- Starting the pipeline: the effect body runs from page 0 over the
initial page state until the first suspension. -/
def pipelineStart (props : List StoryPage) :
    Kont × List PageState × Option FetchReq :=
  advance props (initPages props) (Kont.run 0) (initPages props)

/-! ### Derived characterisations (proved against the code below) -/

/-- The fetches one loop iteration issues for page `i`. -/
def pageReqs (props : List StoryPage) (snap : List PageState) (i : Nat) : List FetchReq :=
  (if condImage props snap i then [{ page := i, kind := AssetKind.image }] else []) ++
    (if condAudio props snap i then [{ page := i, kind := AssetKind.audio }] else [])

/-- The full issue-order trace of the loop from page `i` on. -/
def canonicalTrace (props : List StoryPage) (snap : List PageState) (i : Nat) :
    List FetchReq :=
  if _h : i < props.length then
    pageReqs props snap i ++ canonicalTrace props snap (i + 1)
  else []
termination_by props.length - i

/-- What one loop iteration does to page `i`'s own record. -/
def pageOutcome (env : FetchEnv) (props : List StoryPage) (snap : List PageState)
    (i : Nat) (p : PageState) : PageState :=
  let p1 :=
    if condImage props snap i then
      applyPatch (applyPatch p { isImageLoading := some true })
        (imageResultPatch (env i AssetKind.image))
    else p
  if condAudio props snap i then
    applyPatch (applyPatch p1 { isAudioLoading := some true })
      (audioResultPatch i (env i AssetKind.audio))
  else p1

/-! ### Auxiliary predicates and concrete scenario states -/

/-- The audio contexts a state's session owns: the session's context alone
(or none). -/
def sessionCtxList (s : ViewerState) : List Nat :=
  match s.audioSession with
  | some sess => [sess.ctxId]
  | none => []

/-- The reachable-state invariant relating `playbackStatus` to the session
context: `playing` means a running context is held, `paused` a suspended
one. -/
def statusCtxOk (s : ViewerState) : Bool :=
  match s.playbackStatus, s.audioSession with
  | PlaybackStatus.playing, some sess => decide (sess.ctxState = CtxState.running)
  | PlaybackStatus.playing, none => false
  | PlaybackStatus.paused, some sess => decide (sess.ctxState = CtxState.suspended)
  | PlaybackStatus.paused, none => false
  | PlaybackStatus.stopped, _ => true

/-- A two-page story with nonempty text and image prompts. -/
def twoPages : List StoryPage :=
  [{ text := "A", imagePrompt := "p1" }, { text := "B", imagePrompt := "p2" }]

/-- An oracle whose image fetches fail and whose audio fetches succeed. -/
def envImgFail : FetchEnv := fun _ k =>
  match k with
  | AssetKind.image => none
  | AssetKind.audio => some "d"

/-- A page whose audio has been fetched and decoded. -/
def bufPage : PageState :=
  { text := "A", imagePrompt := "p1", imageUrl := none, audioData := some "d",
    audioBuffer := some 0, isImageLoading := false, isAudioLoading := false,
    imageError := false, audioError := false }

/-- A second decoded page. -/
def bufPage1 : PageState :=
  { bufPage with text := "B", imagePrompt := "p2", audioBuffer := some 1 }

/-- Three decoded pages, viewer stopped on page 0. -/
def exStopped : ViewerState :=
  { currentPageIndex := 0
    storyPages := [bufPage, bufPage1, bufPage1]
    playbackStatus := PlaybackStatus.stopped
    shouldAutoplay := false
    audioSession := none
    nextCtxId := 0
    liveCtxIds := [] }

/-- Same story, viewing the middle page. -/
def exMid : ViewerState := { exStopped with currentPageIndex := 1 }

/-- Same story, autoplay intent armed on page 0. -/
def exArmed : ViewerState := { exStopped with shouldAutoplay := true }

/-- Same story, page 0 playing with a live running session. -/
def exPlaying : ViewerState :=
  { exStopped with
    playbackStatus := PlaybackStatus.playing
    audioSession := some { ctxId := 3, boundPage := 0, ctxState := CtxState.running }
    nextCtxId := 4
    liveCtxIds := [3] }

/-- Same story, last page displayed while its audio is playing. -/
def exPlayingLast : ViewerState :=
  { exStopped with
    currentPageIndex := 2
    playbackStatus := PlaybackStatus.playing
    audioSession := some { ctxId := 5, boundPage := 2, ctxState := CtxState.running }
    nextCtxId := 6
    liveCtxIds := [5] }

/-! ## Helper lemmas -/

theorem updatePages_length (ps : List PageState) (i : Nat) (u : PagePatch) :
    (updatePages ps i u).length = ps.length := by
  induction ps generalizing i with
  | nil => rfl
  | cons p rest ih =>
    cases i with
    | zero => rfl
    | succ n => simp [updatePages, ih n]

theorem updatePages_getElem?_ne (ps : List PageState) (i j : Nat) (u : PagePatch)
    (h : j ≠ i) : (updatePages ps i u)[j]? = ps[j]? := by
  induction ps generalizing i j with
  | nil => rfl
  | cons p rest ih =>
    cases i with
    | zero =>
      cases j with
      | zero => exact absurd rfl h
      | succ m => simp [updatePages]
    | succ n =>
      cases j with
      | zero => simp [updatePages]
      | succ m => simp [updatePages, ih n m (fun hh => h (by rw [hh]))]

theorem updatePages_getElem?_eq (ps : List PageState) (i : Nat) (u : PagePatch) :
    (updatePages ps i u)[i]? = ps[i]?.map fun p => applyPatch p u := by
  induction ps generalizing i with
  | nil => rfl
  | cons p rest ih =>
    cases i with
    | zero => simp [updatePages]
    | succ n => simp [updatePages, ih n]

theorem play_shouldAutoplay (s : ViewerState) :
    (playAudioForCurrentPage s).shouldAutoplay = s.shouldAutoplay := by
  cases h : currentAudioBuffer s <;> simp [playAudioForCurrentPage, h, stopAudio]

theorem play_pages (s : ViewerState) :
    (playAudioForCurrentPage s).storyPages = s.storyPages := by
  cases h : currentAudioBuffer s <;> simp [playAudioForCurrentPage, h, stopAudio]

theorem play_session (s : ViewerState) (v : Nat) (hv : currentAudioBuffer s = some v) :
    (playAudioForCurrentPage s).audioSession =
      some { ctxId := s.nextCtxId, boundPage := s.currentPageIndex,
             ctxState := CtxState.running } := by
  simp [playAudioForCurrentPage, hv, stopAudio]

theorem play_status (s : ViewerState) (v : Nat) (hv : currentAudioBuffer s = some v) :
    (playAudioForCurrentPage s).playbackStatus = PlaybackStatus.playing := by
  simp [playAudioForCurrentPage, hv, stopAudio]

theorem play_next (s : ViewerState) (v : Nat) (hv : currentAudioBuffer s = some v) :
    (playAudioForCurrentPage s).nextCtxId = s.nextCtxId + 1 := by
  have h : (stopAudio s).nextCtxId = s.nextCtxId := rfl
  simp [playAudioForCurrentPage, hv, h]

theorem play_live (s : ViewerState) (v : Nat) (hv : currentAudioBuffer s = some v) :
    (playAudioForCurrentPage s).liveCtxIds =
      (stopAudio s).liveCtxIds ++ [s.nextCtxId] := by
  have h : (stopAudio s).nextCtxId = s.nextCtxId := rfl
  simp [playAudioForCurrentPage, hv, h]

theorem stopAudio_live (s : ViewerState) (x : Session) (hx : s.audioSession = some x) :
    (stopAudio s).liveCtxIds = s.liveCtxIds.filter (fun id => id ≠ x.ctxId) := by
  simp [stopAudio, hx]

theorem toggle_from_playing (t : ViewerState) (x : Session)
    (hst : t.playbackStatus = PlaybackStatus.playing)
    (hse : t.audioSession = some x) (hx : x.ctxState = CtxState.running) :
    handlePlayPauseToggle t =
      { t with
        shouldAutoplay := false
        audioSession := some { x with ctxState := CtxState.suspended }
        playbackStatus := PlaybackStatus.paused } := by
  simp [handlePlayPauseToggle, hst, hse, hx]

theorem toggle_from_paused (t : ViewerState) (x : Session)
    (hst : t.playbackStatus = PlaybackStatus.paused)
    (hse : t.audioSession = some x) (hx : x.ctxState = CtxState.suspended) :
    handlePlayPauseToggle t =
      { t with
        shouldAutoplay := false
        audioSession := some { x with ctxState := CtxState.running }
        playbackStatus := PlaybackStatus.playing } := by
  simp [handlePlayPauseToggle, hst, hse, hx]

theorem toggle_shouldAutoplay (t : ViewerState) :
    (handlePlayPauseToggle t).shouldAutoplay = false := by
  simp only [handlePlayPauseToggle]
  repeat' split
  all_goals first | rfl | rw [play_shouldAutoplay]

/-! ## Claim theorems -/

/-- C4: `stop()` is idempotent — for every playback state, calling it with
the source already finished or not never raises (the `try`/`catch`
swallows the halt error), and it leaves status `stopped` with no live
session; a second call changes nothing. -/
theorem stop_idempotent (s : ViewerState) (fin1 fin2 : Bool) :
    stopAudioE fin1 s = Except.ok (stopAudio s) ∧
    (stopAudio s).playbackStatus = PlaybackStatus.stopped ∧
    (stopAudio s).audioSession = none ∧
    stopAudio (stopAudio s) = stopAudio s ∧
    stopAudioE fin2 (stopAudio s) = Except.ok (stopAudio s) := by
  refine ⟨?_, rfl, rfl, ?_, ?_⟩
  · cases hs : s.audioSession <;> cases fin1 <;>
      simp [stopAudioE, sourceStopRaw, hs]
  · simp [stopAudio]
  · cases fin2 <;> simp [stopAudioE, sourceStopRaw, stopAudio]

/-- C6: `next()` off the last page unconditionally stops playback,
advances the index by one and arms the autoplay intent; `previous()` off
the first page unconditionally stops playback, moves the index back by
one and leaves the intent disarmed. -/
theorem nav_stops_and_arms (s : ViewerState) :
    (s.currentPageIndex < s.storyPages.length - 1 →
      (handleNextPage s).currentPageIndex = s.currentPageIndex + 1 ∧
      (handleNextPage s).shouldAutoplay = true ∧
      (handleNextPage s).playbackStatus = PlaybackStatus.stopped ∧
      (handleNextPage s).audioSession = none ∧
      (handleNextPage s).storyPages = s.storyPages) ∧
    (0 < s.currentPageIndex →
      (handlePrevPage s).currentPageIndex = s.currentPageIndex - 1 ∧
      (handlePrevPage s).shouldAutoplay = false ∧
      (handlePrevPage s).playbackStatus = PlaybackStatus.stopped ∧
      (handlePrevPage s).audioSession = none ∧
      (handlePrevPage s).storyPages = s.storyPages) := by
  constructor
  · intro h
    simp [handleNextPage, h, stopAudio]
  · intro h
    simp [handlePrevPage, h, stopAudio]

/-- C6 witness: from the middle page of a three-page story, `next()`
advances to index 2 arming autoplay and `previous()` returns to index 0
with autoplay disarmed. -/
theorem nav_stops_and_arms_witness :
    (handleNextPage exMid).currentPageIndex = 2 ∧
    (handleNextPage exMid).shouldAutoplay = true ∧
    (handlePrevPage exMid).currentPageIndex = 0 ∧
    (handlePrevPage exMid).shouldAutoplay = false := by
  obtain ⟨h1, h2, -, -, -⟩ := (nav_stops_and_arms exMid).1 (by decide)
  obtain ⟨h3, h4, -, -, -⟩ := (nav_stops_and_arms exMid).2 (by decide)
  exact ⟨h1, h2, h3, h4⟩

/-- C10: `next()` on the last page and `previous()` on the first page are
complete no-ops — index, autoplay intent, playback status and any live
session are all unchanged. -/
theorem nav_boundary_noop (s : ViewerState) :
    (s.currentPageIndex = s.storyPages.length - 1 → handleNextPage s = s) ∧
    (s.currentPageIndex = 0 → handlePrevPage s = s) := by
  constructor
  · intro h
    simp [handleNextPage, h]
  · intro h
    simp [handlePrevPage, h]

/-- C10 witness: on the last page with audio still playing, `next()`
changes nothing (the live session survives); on the first page,
`previous()` changes nothing. -/
theorem nav_boundary_noop_witness :
    handleNextPage exPlayingLast = exPlayingLast ∧
    handlePrevPage exStopped = exStopped := by
  exact ⟨(nav_boundary_noop exPlayingLast).1 rfl, (nav_boundary_noop exStopped).2 rfl⟩

/-- C9: `updatePage(i, u)` merges only the fields of `u` into the record
at a valid index `i`: the length is unchanged, every other index is
unchanged, and every field of record `i` that `u` does not mention keeps
its previous value. -/
theorem updatePage_frame (ps : List PageState) (i : Nat) (u : PagePatch)
    (_hi : i < ps.length) :
    (updatePages ps i u).length = ps.length ∧
    (∀ j, j ≠ i → (updatePages ps i u)[j]? = ps[j]?) ∧
    ∀ p, ps[i]? = some p →
      (updatePages ps i u)[i]? = some (applyPatch p u) ∧
      (u.text = none → (applyPatch p u).text = p.text) ∧
      (u.imagePrompt = none → (applyPatch p u).imagePrompt = p.imagePrompt) ∧
      (u.imageUrl = none → (applyPatch p u).imageUrl = p.imageUrl) ∧
      (u.audioData = none → (applyPatch p u).audioData = p.audioData) ∧
      (u.audioBuffer = none → (applyPatch p u).audioBuffer = p.audioBuffer) ∧
      (u.isImageLoading = none → (applyPatch p u).isImageLoading = p.isImageLoading) ∧
      (u.isAudioLoading = none → (applyPatch p u).isAudioLoading = p.isAudioLoading) ∧
      (u.imageError = none → (applyPatch p u).imageError = p.imageError) ∧
      (u.audioError = none → (applyPatch p u).audioError = p.audioError) := by
  refine ⟨updatePages_length ps i u,
    fun j hj => updatePages_getElem?_ne ps i j u hj, fun p hp => ?_⟩
  refine ⟨by rw [updatePages_getElem?_eq, hp]; rfl, ?_, ?_, ?_, ?_, ?_, ?_, ?_, ?_, ?_⟩ <;>
    (intro h; simp [applyPatch, h])

/-- C9 witness: patching only `isImageLoading` at index 0 of a two-page
array keeps the length, index 1, and index 0's `audioError` intact. -/
theorem updatePage_frame_witness :
    (updatePages [bufPage, bufPage1] 0 { isImageLoading := some true }).length = 2 ∧
    (updatePages [bufPage, bufPage1] 0 { isImageLoading := some true })[1]? =
      [bufPage, bufPage1][1]? ∧
    (applyPatch bufPage { isImageLoading := some true }).audioError = bufPage.audioError := by
  obtain ⟨h1, h2, h3⟩ :=
    updatePage_frame [bufPage, bufPage1] 0 { isImageLoading := some true } (by decide)
  obtain ⟨-, -, -, -, -, -, -, -, -, h5⟩ := h3 bufPage rfl
  exact ⟨h1, h2 1 (by decide), h5 rfl⟩

/-- C3: when the autoplay intent is armed and the displayed page's buffer
is available, one run of the autoplay effect triggers exactly one
automatic `play()` and consumes the intent; a further run of the effect
for the same arming triggers nothing. -/
theorem autoplay_consumed_once (s : ViewerState)
    (h1 : s.shouldAutoplay = true) (h2 : (currentAudioBuffer s).isSome) :
    (autoplayEffect s).2 = true ∧
    (autoplayEffect s).1 = { playAudioForCurrentPage s with shouldAutoplay := false } ∧
    (autoplayEffect s).1.shouldAutoplay = false ∧
    autoplayEffect (autoplayEffect s).1 = ((autoplayEffect s).1, false) := by
  obtain ⟨v, hv⟩ := Option.isSome_iff_exists.mp h2
  refine ⟨by simp [autoplayEffect, h1, hv], by simp [autoplayEffect, h1, hv], ?_, ?_⟩
  · simp [autoplayEffect, h1, hv]
  · have hfalse : (autoplayEffect s).1.shouldAutoplay = false := by
      simp [autoplayEffect, h1, hv]
    generalize hgen : (autoplayEffect s).1 = t at hfalse ⊢
    simp [autoplayEffect, hfalse]

/-- C3 witness: with the intent armed on a ready page, the effect plays
once and a second run of the effect does not play again. -/
theorem autoplay_consumed_once_witness :
    (autoplayEffect exArmed).2 = true ∧
    autoplayEffect (autoplayEffect exArmed).1 = ((autoplayEffect exArmed).1, false) := by
  obtain ⟨h1, -, -, h4⟩ := autoplay_consumed_once exArmed rfl (by decide)
  exact ⟨h1, h4⟩

/-- Stopping releases the only live context: in a state whose live-context
list is exactly its session's context, `stopAudio` leaves no live
context. -/
theorem stopAudio_live_nil (s : ViewerState) (hw : s.liveCtxIds = sessionCtxList s) :
    (stopAudio s).liveCtxIds = [] := by
  cases hs : s.audioSession with
  | none =>
    simp [sessionCtxList, hs] at hw
    simp [stopAudio, hs, hw]
  | some x =>
    simp [sessionCtxList, hs] at hw
    simp [stopAudio, hs, hw, List.filter]

/-- C7: `toggle()` always first clears the autoplay intent, then
dispatches on status — `stopped` invokes `play(current page)`, `playing`
suspends the session ending `paused`, `paused` resumes it ending
`playing` (in any reachable state, where status and context state
agree). -/
theorem toggle_dispatch (s : ViewerState) (hok : statusCtxOk s = true) :
    (handlePlayPauseToggle s).shouldAutoplay = false ∧
    (s.playbackStatus = PlaybackStatus.stopped →
      handlePlayPauseToggle s = playAudioForCurrentPage { s with shouldAutoplay := false }) ∧
    (s.playbackStatus = PlaybackStatus.playing →
      ∃ x, s.audioSession = some x ∧
        handlePlayPauseToggle s =
          { s with
            shouldAutoplay := false
            audioSession := some { x with ctxState := CtxState.suspended }
            playbackStatus := PlaybackStatus.paused }) ∧
    (s.playbackStatus = PlaybackStatus.paused →
      ∃ x, s.audioSession = some x ∧
        handlePlayPauseToggle s =
          { s with
            shouldAutoplay := false
            audioSession := some { x with ctxState := CtxState.running }
            playbackStatus := PlaybackStatus.playing }) := by
  refine ⟨toggle_shouldAutoplay s, fun h => ?_, fun h => ?_, fun h => ?_⟩
  · simp [handlePlayPauseToggle, h]
  · cases hse : s.audioSession with
    | none => simp [statusCtxOk, h, hse] at hok
    | some x =>
      have hrun : x.ctxState = CtxState.running := by
        simpa [statusCtxOk, h, hse] using hok
      exact ⟨x, rfl, toggle_from_playing s x h hse hrun⟩
  · cases hse : s.audioSession with
    | none => simp [statusCtxOk, h, hse] at hok
    | some x =>
      have hsus : x.ctxState = CtxState.suspended := by
        simpa [statusCtxOk, h, hse] using hok
      exact ⟨x, rfl, toggle_from_paused s x h hse hsus⟩

/-- C7 witness: toggling while playing suspends the held session and ends
paused with the intent cleared. -/
theorem toggle_dispatch_witness :
    (handlePlayPauseToggle exPlaying).shouldAutoplay = false ∧
    handlePlayPauseToggle exPlaying =
      { exPlaying with
        shouldAutoplay := false
        audioSession := some { ctxId := 3, boundPage := 0, ctxState := CtxState.suspended }
        playbackStatus := PlaybackStatus.paused } := by
  obtain ⟨h1, -, h3, -⟩ := toggle_dispatch exPlaying (by decide)
  obtain ⟨x, hse, he⟩ := h3 rfl
  have hx : (some { ctxId := 3, boundPage := 0, ctxState := CtxState.running } :
      Option Session) = some x := hse
  obtain rfl := Option.some.inj hx
  exact ⟨h1, he⟩

/-- C5: for a page whose buffer is present, `play(); pause(); resume()`
ends with status `playing` and the original session object (same context
identity) reused — no new session is created across the round trip. -/
theorem pause_resume_reuses_session (s : ViewerState)
    (hb : (currentAudioBuffer s).isSome) :
    let s1 := playAudioForCurrentPage s
    let s2 := handlePlayPauseToggle s1
    let s3 := handlePlayPauseToggle s2
    s3.playbackStatus = PlaybackStatus.playing ∧
    (∃ sess, s1.audioSession = some sess ∧
      s2.audioSession = some { sess with ctxState := CtxState.suspended } ∧
      s2.playbackStatus = PlaybackStatus.paused ∧
      s3.audioSession = some sess) ∧
    s3.nextCtxId = s1.nextCtxId ∧
    s3.liveCtxIds = s1.liveCtxIds := by
  obtain ⟨v, hv⟩ := Option.isSome_iff_exists.mp hb
  intro s1 s2 s3
  have hsess : s1.audioSession =
      some ⟨s.nextCtxId, s.currentPageIndex, CtxState.running⟩ := play_session s v hv
  have hst1 : s1.playbackStatus = PlaybackStatus.playing := play_status s v hv
  have h2 : s2 =
      { s1 with
        shouldAutoplay := false
        audioSession := some ⟨s.nextCtxId, s.currentPageIndex, CtxState.suspended⟩
        playbackStatus := PlaybackStatus.paused } :=
    toggle_from_playing s1 _ hst1 hsess rfl
  have h3 : s3 =
      { s2 with
        shouldAutoplay := false
        audioSession := some ⟨s.nextCtxId, s.currentPageIndex, CtxState.running⟩
        playbackStatus := PlaybackStatus.playing } := by
    refine toggle_from_paused s2 ⟨s.nextCtxId, s.currentPageIndex, CtxState.suspended⟩ ?_ ?_ rfl
    · rw [h2]
    · rw [h2]
  exact ⟨by rw [h3], ⟨⟨s.nextCtxId, s.currentPageIndex, CtxState.running⟩, hsess,
    by rw [h2], by rw [h2], by rw [h3]⟩, by rw [h3, h2], by rw [h3, h2]⟩

/-- C5 witness: play-pause-resume on a ready page ends playing with the
session created by the initial play. -/
theorem pause_resume_reuses_session_witness :
    (handlePlayPauseToggle (handlePlayPauseToggle
      (playAudioForCurrentPage exStopped))).playbackStatus = PlaybackStatus.playing ∧
    (handlePlayPauseToggle (handlePlayPauseToggle
      (playAudioForCurrentPage exStopped))).nextCtxId =
      (playAudioForCurrentPage exStopped).nextCtxId := by
  obtain ⟨h1, -, h3, -⟩ := pause_resume_reuses_session exStopped (by decide)
  exact ⟨h1, h3⟩

/-- C2: `play(pageA)` then `play(pageB)` with no intervening `stop()`
leaves exactly one live output session, bound to page B: the new play
tears the old session down (its context is closed and gone from the live
set) before creating the new one. -/
theorem play_exclusive_session (s : ViewerState) (a b : Nat) (pa pb : PageState)
    (hw : s.liveCtxIds = sessionCtxList s)
    (ha : s.storyPages[a]? = some pa) (hva : pa.audioBuffer.isSome)
    (hb : s.storyPages[b]? = some pb) (hvb : pb.audioBuffer.isSome) :
    let s1 := playAudioForCurrentPage { s with currentPageIndex := a }
    let s2 := playAudioForCurrentPage { s1 with currentPageIndex := b }
    ∃ sess, s2.audioSession = some sess ∧ sess.boundPage = b ∧
      s2.playbackStatus = PlaybackStatus.playing ∧
      s2.liveCtxIds = [sess.ctxId] ∧
      ∀ sA, s1.audioSession = some sA → sA.ctxId ∉ s2.liveCtxIds ∧ sA.ctxId ≠ sess.ctxId := by
  obtain ⟨va, hva'⟩ := Option.isSome_iff_exists.mp hva
  obtain ⟨vb, hvb'⟩ := Option.isSome_iff_exists.mp hvb
  intro s1 s2
  have hca : currentAudioBuffer { s with currentPageIndex := a } = some va := by
    simp [currentAudioBuffer, ha, hva']
  have hs1sess : s1.audioSession = some ⟨s.nextCtxId, a, CtxState.running⟩ :=
    play_session _ va hca
  have hs1live : s1.liveCtxIds = [s.nextCtxId] := by
    have hl := play_live { s with currentPageIndex := a } va hca
    have hnil : (stopAudio { s with currentPageIndex := a }).liveCtxIds = [] :=
      stopAudio_live_nil _ hw
    rw [hl, hnil]
    rfl
  have hs1pages : s1.storyPages = s.storyPages := play_pages _
  have hs1next : s1.nextCtxId = s.nextCtxId + 1 := play_next _ va hca
  have hcb : currentAudioBuffer { s1 with currentPageIndex := b } = some vb := by
    simp [currentAudioBuffer, hs1pages, hb, hvb']
  have hs2sess : s2.audioSession = some ⟨s1.nextCtxId, b, CtxState.running⟩ :=
    play_session _ vb hcb
  have hs2status : s2.playbackStatus = PlaybackStatus.playing := play_status _ vb hcb
  have hstoplive : (stopAudio { s1 with currentPageIndex := b }).liveCtxIds = [] := by
    have heq := stopAudio_live { s1 with currentPageIndex := b }
      ⟨s.nextCtxId, a, CtxState.running⟩ hs1sess
    rw [heq]
    simp [hs1live, List.filter]
  have hs2live : s2.liveCtxIds = [s.nextCtxId + 1] := by
    have hl2 := play_live { s1 with currentPageIndex := b } vb hcb
    rw [hl2, hstoplive]
    simp [hs1next]
  refine ⟨⟨s.nextCtxId + 1, b, CtxState.running⟩, ?_, rfl, hs2status, by rw [hs2live], ?_⟩
  · rw [hs2sess, hs1next]
  · intro sA hsA
    rw [hs1sess] at hsA
    obtain rfl : sA = ⟨s.nextCtxId, a, CtxState.running⟩ := (Option.some.inj hsA).symm
    constructor
    · rw [hs2live]
      simp
    · simp

/-- C2 witness: playing page 0 then page 1 of the concrete story leaves a
single live session bound to page 1. -/
theorem play_exclusive_session_witness :
    ∃ sess,
      (playAudioForCurrentPage
        { playAudioForCurrentPage { exStopped with currentPageIndex := 0 } with
          currentPageIndex := 1 }).audioSession = some sess ∧
      sess.boundPage = 1 ∧
      (playAudioForCurrentPage
        { playAudioForCurrentPage { exStopped with currentPageIndex := 0 } with
          currentPageIndex := 1 }).liveCtxIds = [sess.ctxId] := by
  obtain ⟨sess, h1, h2, -, h4, -⟩ :=
    play_exclusive_session exStopped 0 1 bufPage bufPage1 rfl rfl (by decide) rfl (by decide)
  exact ⟨sess, h1, h2, h4⟩

/-! ## Pipeline lemmas -/

theorem condImage_lt (props : List StoryPage) (snap : List PageState) (i : Nat)
    (h : condImage props snap i = true) : i < props.length := by
  unfold condImage at h
  cases hp : props.get? i with
  | none => rw [hp] at h; cases snap.get? i <;> simp at h
  | some sp =>
    obtain ⟨hlt, -⟩ := List.get?_eq_some.mp hp
    exact hlt

theorem condAudio_lt (props : List StoryPage) (snap : List PageState) (i : Nat)
    (h : condAudio props snap i = true) : i < props.length := by
  unfold condAudio at h
  cases hp : props.get? i with
  | none => rw [hp] at h; cases snap.get? i <;> simp at h
  | some sp =>
    obtain ⟨hlt, -⟩ := List.get?_eq_some.mp hp
    exact hlt

theorem initPages_length (props : List StoryPage) :
    (initPages props).length = props.length := by
  simp [initPages]

theorem iterPage_trace (env : FetchEnv) (props : List StoryPage) (snap : List PageState)
    (i : Nat) (cur : List PageState) :
    (iterPage env props snap i cur).2 = pageReqs props snap i := by
  unfold iterPage pageReqs
  by_cases h1 : condImage props snap i = true <;>
    by_cases h2 : condAudio props snap i = true <;> simp [h1, h2]

theorem iterPage_fst_ne (env : FetchEnv) (props : List StoryPage) (snap : List PageState)
    (i : Nat) (cur : List PageState) (j : Nat) (hj : j ≠ i) :
    (iterPage env props snap i cur).1[j]? = cur[j]? := by
  unfold iterPage
  by_cases h1 : condImage props snap i = true <;>
    by_cases h2 : condAudio props snap i = true <;>
      simp [h1, h2, updatePages_getElem?_ne _ _ _ _ hj]

theorem iterPage_fst_eq (env : FetchEnv) (props : List StoryPage) (snap : List PageState)
    (i : Nat) (cur : List PageState) :
    (iterPage env props snap i cur).1[i]? =
      cur[i]?.map (pageOutcome env props snap i) := by
  cases hc : cur[i]? with
  | none =>
    unfold iterPage
    by_cases h1 : condImage props snap i = true <;>
      by_cases h2 : condAudio props snap i = true <;>
        simp [h1, h2, updatePages_getElem?_eq, hc]
  | some p =>
    unfold iterPage pageOutcome
    by_cases h1 : condImage props snap i = true <;>
      by_cases h2 : condAudio props snap i = true <;>
        simp [h1, h2, updatePages_getElem?_eq, hc]

theorem prefetchFrom_trace (env : FetchEnv) (props : List StoryPage) (snap : List PageState)
    (i : Nat) (cur : List PageState) :
    (prefetchFrom env props snap i cur).2 = canonicalTrace props snap i := by
  unfold prefetchFrom canonicalTrace
  by_cases h : i < props.length
  · simp [h, iterPage_trace,
      prefetchFrom_trace env props snap (i + 1) (iterPage env props snap i cur).1]
  · simp [h]
termination_by props.length - i

theorem canonicalTrace_page_ge (props : List StoryPage) (snap : List PageState)
    (i : Nat) (r : FetchReq) (hr : r ∈ canonicalTrace props snap i) : i ≤ r.page := by
  unfold canonicalTrace at hr
  by_cases h : i < props.length
  · rw [dif_pos h] at hr
    rcases List.mem_append.mp hr with h1 | h2
    · unfold pageReqs at h1
      rcases List.mem_append.mp h1 with h3 | h4
      · split at h3 <;> simp at h3
        rw [h3]
      · split at h4 <;> simp at h4
        rw [h4]
    · have := canonicalTrace_page_ge props snap (i + 1) r h2
      omega
  · rw [dif_neg h] at hr
    simp at hr
termination_by props.length - i

theorem pageReqs_countP_le_one (props : List StoryPage) (snap : List PageState)
    (p : Nat) (k : AssetKind) :
    (pageReqs props snap p).countP
      (fun r => decide (r.page = p ∧ r.kind = k)) ≤ 1 := by
  unfold pageReqs
  by_cases h1 : condImage props snap p = true <;>
    by_cases h2 : condAudio props snap p = true <;>
      cases k <;> simp [h1, h2, List.countP_append, List.countP_cons, List.countP_nil]

theorem canonicalTrace_countP_le_one (props : List StoryPage) (snap : List PageState)
    (i p : Nat) (k : AssetKind) :
    (canonicalTrace props snap i).countP
      (fun r => decide (r.page = p ∧ r.kind = k)) ≤ 1 := by
  unfold canonicalTrace
  by_cases h : i < props.length
  · rw [dif_pos h, List.countP_append]
    by_cases hip : i = p
    · subst hip
      have hz : (canonicalTrace props snap (i + 1)).countP
          (fun r => decide (r.page = i ∧ r.kind = k)) = 0 := by
        rw [List.countP_eq_zero]
        intro r hr
        have hge := canonicalTrace_page_ge props snap (i + 1) r hr
        simp
        intro hpage
        omega
      have hp := pageReqs_countP_le_one props snap i k
      omega
    · have hz : (pageReqs props snap i).countP
          (fun r => decide (r.page = p ∧ r.kind = k)) = 0 := by
        rw [List.countP_eq_zero]
        intro r hr
        unfold pageReqs at hr
        rcases List.mem_append.mp hr with h3 | h4
        · split at h3 <;> simp at h3
          simp [h3, hip]
        · split at h4 <;> simp at h4
          simp [h4, hip]
      have := canonicalTrace_countP_le_one props snap (i + 1) p k
      omega
  · rw [dif_neg h]
    simp
termination_by props.length - i

theorem prefetchFrom_fst_lt (env : FetchEnv) (props : List StoryPage) (snap : List PageState)
    (i : Nat) (cur : List PageState) (j : Nat) (hj : j < i) :
    (prefetchFrom env props snap i cur).1[j]? = cur[j]? := by
  unfold prefetchFrom
  by_cases h : i < props.length
  · rw [dif_pos h]
    have h1 := prefetchFrom_fst_lt env props snap (i + 1)
      (iterPage env props snap i cur).1 j (by omega)
    simp only [h1]
    exact iterPage_fst_ne env props snap i cur j (by omega)
  · rw [dif_neg h]
termination_by props.length - i

theorem prefetchFrom_fst_of_le (env : FetchEnv) (props : List StoryPage)
    (snap : List PageState) (i : Nat) (cur : List PageState) (j : Nat)
    (hij : i ≤ j) (hj : j < props.length) :
    (prefetchFrom env props snap i cur).1[j]? =
      cur[j]?.map (pageOutcome env props snap j) := by
  have h : i < props.length := lt_of_le_of_lt hij hj
  unfold prefetchFrom
  rw [dif_pos h]
  by_cases hij' : i = j
  · subst hij'
    simp only []
    rw [prefetchFrom_fst_lt env props snap (i + 1) (iterPage env props snap i cur).1 i
      (by omega)]
    exact iterPage_fst_eq env props snap i cur
  · simp only []
    rw [prefetchFrom_fst_of_le env props snap (i + 1) (iterPage env props snap i cur).1 j
      (by omega) hj]
    rw [iterPage_fst_ne env props snap i cur j (by omega)]
termination_by props.length - i

theorem pageOutcome_imageError (env : FetchEnv) (props : List StoryPage)
    (snap : List PageState) (i : Nat) (p : PageState)
    (hc : condImage props snap i = true) (hf : env i AssetKind.image = none) :
    (pageOutcome env props snap i p).imageError = true := by
  unfold pageOutcome
  by_cases hca : condAudio props snap i = true <;>
    cases henv : env i AssetKind.audio <;>
      simp [hc, hf, hca, henv, applyPatch, imageResultPatch, audioResultPatch]

theorem pageOutcome_audioError (env : FetchEnv) (props : List StoryPage)
    (snap : List PageState) (i : Nat) (p : PageState)
    (hc : condAudio props snap i = true) (hf : env i AssetKind.audio = none) :
    (pageOutcome env props snap i p).audioError = true := by
  unfold pageOutcome
  by_cases hci : condImage props snap i = true <;>
    cases henv : env i AssetKind.image <;>
      simp [hc, hf, hci, henv, applyPatch, imageResultPatch, audioResultPatch]

theorem advance_wait (props : List StoryPage) (snap : List PageState)
    (i : Nat) (cur : List PageState) :
    advance props snap (Kont.waitImage i) cur = (Kont.waitImage i, cur, none) := by
  unfold advance
  rfl

theorem deliver_waitImage (props : List StoryPage) (snap : List PageState)
    (i : Nat) (cur : List PageState) (res : Option String) :
    deliver props snap (Kont.waitImage i) cur res =
      advance props snap (Kont.runAudio i) (updatePages cur i (imageResultPatch res)) := rfl

theorem advance_runAudio (props : List StoryPage) (snap : List PageState)
    (i : Nat) (cur : List PageState) (h : condAudio props snap i = true) :
    advance props snap (Kont.runAudio i) cur =
      (Kont.waitAudio i, updatePages cur i { isAudioLoading := some true },
        some { page := i, kind := AssetKind.audio }) := by
  unfold advance
  rw [if_pos h]

theorem pipelineStart_eq (props : List StoryPage)
    (h0 : condImage props (initPages props) 0 = true) :
    pipelineStart props = (Kont.waitImage 0,
      updatePages (initPages props) 0 { isImageLoading := some true },
      some { page := 0, kind := AssetKind.image }) := by
  have hlt : 0 < props.length := condImage_lt _ _ _ h0
  unfold pipelineStart
  unfold advance
  rw [dif_pos hlt, if_pos h0]

/-- C1 counterexample: on a concrete two-page story the pipeline is *not*
non-blocking.  After start it is suspended awaiting page 0's image fetch;
page 1's loading flags are still false and the suspended loop makes no
progress at all without page 0's result (so no UI state update for any
later page can happen), and even delivering page 0's image result only
issues page 0's audio fetch next — not page 1's, and not concurrently. -/
theorem prefetch_not_concurrent_counterexample :
    (pipelineStart twoPages).1 = Kont.waitImage 0 ∧
    (pipelineStart twoPages).2.2 = some { page := 0, kind := AssetKind.image } ∧
    ((pipelineStart twoPages).2.1[1]?).map (fun p => p.isImageLoading) = some false ∧
    ((pipelineStart twoPages).2.1[1]?).map (fun p => p.isAudioLoading) = some false ∧
    advance twoPages (initPages twoPages) (Kont.waitImage 0)
      (pipelineStart twoPages).2.1 =
      (Kont.waitImage 0, (pipelineStart twoPages).2.1, none) ∧
    (deliver twoPages (initPages twoPages) (Kont.waitImage 0)
      (pipelineStart twoPages).2.1 (some "u")).2.2 =
      some { page := 0, kind := AssetKind.audio } := by
  have hpe := pipelineStart_eq twoPages (by decide)
  refine ⟨by simp [hpe], by simp [hpe], ?_, ?_, advance_wait _ _ _ _, ?_⟩
  · simp only [hpe]
    decide
  · simp only [hpe]
    decide
  · simp only [hpe]
    rw [deliver_waitImage, advance_runAudio _ _ _ _ (by decide)]

/-- C1 (amended): per-page attempts are issued in story order but strictly
sequentially: the pipeline suspends on each `await`ed fetch, a suspended
pipeline makes no progress on its own, and delivering page 0's image
result is what issues page 0's audio fetch — so each fetch blocks all
later fetches and later pages' loading-flag updates. -/
theorem prefetch_sequential (props : List StoryPage)
    (h0i : condImage props (initPages props) 0 = true)
    (h0a : condAudio props (initPages props) 0 = true) :
    (pipelineStart props).1 = Kont.waitImage 0 ∧
    (pipelineStart props).2.2 = some { page := 0, kind := AssetKind.image } ∧
    (∀ j, j ≠ 0 → (pipelineStart props).2.1[j]? = (initPages props)[j]?) ∧
    (∀ cur, advance props (initPages props) (Kont.waitImage 0) cur =
      (Kont.waitImage 0, cur, none)) ∧
    (∀ res, (deliver props (initPages props) (Kont.waitImage 0)
        (pipelineStart props).2.1 res).1 = Kont.waitAudio 0 ∧
      (deliver props (initPages props) (Kont.waitImage 0)
        (pipelineStart props).2.1 res).2.2 =
        some { page := 0, kind := AssetKind.audio }) := by
  have hpe := pipelineStart_eq props h0i
  refine ⟨by simp [hpe], by simp [hpe], ?_,
    fun cur => advance_wait props (initPages props) 0 cur, fun res => ?_⟩
  · intro j hj
    simp only [hpe]
    exact updatePages_getElem?_ne _ _ _ _ hj
  · rw [deliver_waitImage, advance_runAudio _ _ _ _ h0a]
    exact ⟨rfl, rfl⟩

/-- C1 witness: the amended sequential behaviour on the concrete two-page
story. -/
theorem prefetch_sequential_witness :
    (pipelineStart twoPages).1 = Kont.waitImage 0 ∧
    (pipelineStart twoPages).2.1[1]? = (initPages twoPages)[1]? ∧
    (deliver twoPages (initPages twoPages) (Kont.waitImage 0)
      (pipelineStart twoPages).2.1 none).1 = Kont.waitAudio 0 := by
  obtain ⟨h1, -, h3, -, h5⟩ := prefetch_sequential twoPages (by decide) (by decide)
  exact ⟨h1, h3 1 (by decide), (h5 none).1⟩

/-- C8: within the pipeline's single pass, at most one image fetch and at
most one audio fetch are ever issued for any page, and a failed fetch
leaves that page's error flag set in the final state — sticky, never
cleared by the pipeline. -/
theorem prefetch_single_attempt_sticky_error (env : FetchEnv) (props : List StoryPage)
    (i : Nat) :
    ((prefetchAssets env props).2.countP
        (fun r => decide (r.page = i ∧ r.kind = AssetKind.image)) ≤ 1) ∧
    ((prefetchAssets env props).2.countP
        (fun r => decide (r.page = i ∧ r.kind = AssetKind.audio)) ≤ 1) ∧
    (condImage props (initPages props) i = true → env i AssetKind.image = none →
      ∃ p, (prefetchAssets env props).1[i]? = some p ∧ p.imageError = true) ∧
    (condAudio props (initPages props) i = true → env i AssetKind.audio = none →
      ∃ p, (prefetchAssets env props).1[i]? = some p ∧ p.audioError = true) := by
  refine ⟨?_, ?_, ?_, ?_⟩
  · unfold prefetchAssets
    rw [prefetchFrom_trace]
    exact canonicalTrace_countP_le_one props (initPages props) 0 i AssetKind.image
  · unfold prefetchAssets
    rw [prefetchFrom_trace]
    exact canonicalTrace_countP_le_one props (initPages props) 0 i AssetKind.audio
  · intro hc hf
    have hlt : i < props.length := condImage_lt props (initPages props) i hc
    have hlen : i < (initPages props).length := by rw [initPages_length]; exact hlt
    unfold prefetchAssets
    rw [prefetchFrom_fst_of_le env props (initPages props) 0 (initPages props) i
      (Nat.zero_le i) hlt]
    rw [List.getElem?_eq_getElem hlen]
    exact ⟨_, rfl, pageOutcome_imageError env props (initPages props) i _ hc hf⟩
  · intro hc hf
    have hlt : i < props.length := condAudio_lt props (initPages props) i hc
    have hlen : i < (initPages props).length := by rw [initPages_length]; exact hlt
    unfold prefetchAssets
    rw [prefetchFrom_fst_of_le env props (initPages props) 0 (initPages props) i
      (Nat.zero_le i) hlt]
    rw [List.getElem?_eq_getElem hlen]
    exact ⟨_, rfl, pageOutcome_audioError env props (initPages props) i _ hc hf⟩

/-- C8 witness: with an oracle that fails image fetches, page 0 of the
concrete story gets at most one image attempt and ends with its sticky
`imageError` flag set. -/
theorem prefetch_single_attempt_sticky_error_witness :
    ((prefetchAssets envImgFail twoPages).2.countP
        (fun r => decide (r.page = 0 ∧ r.kind = AssetKind.image)) ≤ 1) ∧
    ∃ p, (prefetchAssets envImgFail twoPages).1[0]? = some p ∧ p.imageError = true := by
  obtain ⟨h1, -, h3, -⟩ := prefetch_single_attempt_sticky_error envImgFail twoPages 0
  exact ⟨h1, h3 (by decide) rfl⟩
